import Mathlib

/-!
Shallow embedding of the PyCoach lesson/session orchestration layer
(`src/services/geminiService.ts` plus the `App` component's handlers).

The remote generative-AI provider, the JS `JSON.parse` builtin, `fetch`
and `URL.createObjectURL` are external to the repository; they are
modelled as explicit environment parameters (already-parsed values,
outcome values, or outcome functions).  Exceptions raised by the remote
client library map onto the spec's error taxonomy (`RemoteError`,
`SchemaViolation`, `MalformedInput`); fallible operations return
`Except`.
-/

namespace PyCoach

/-- Failure of a remote call itself (network, auth, quota, service),
per the spec's `RemoteError` taxonomy class. -/
inductive RemoteErr where
  | network
  | auth
  | quota
  | service
deriving DecidableEq, Repr

/-- The spec's error taxonomy for gateway operations.  In the source
these are JS exceptions; the embedding reifies them as values. -/
inductive GwError where
  | remoteError (e : RemoteErr)
  | schemaViolation
  | malformedInput
deriving DecidableEq, Repr

/-- JSON values, as produced by the host `JSON.parse` builtin. -/
inductive Json where
  | null
  | bool (b : Bool)
  | num (n : Int)
  | str (s : String)
  | arr (elems : List Json)
  | obj (fields : List (String × Json))
deriving Repr

/-- Whether a JSON value is an object carrying the given key. -/
def Json.hasField (j : Json) (key : String) : Bool :=
  match j with
  | .obj fields => fields.any fun kv => kv.fst == key
  | _ => false

/-- The four field names the source declares `required` in the
`responseSchema` of the analyze-code request (geminiService.ts line 29). -/
def analyzeCodeRequiredFields : List String :=
  ["explanation", "bugs", "improvements", "output"]

/-- `analyzeCode` (geminiService.ts lines 14-34).  The environment
parameter is the remote outcome with the response text already taken
through the host `JSON.parse` builtin: `.ok (some j)` when the text
parses as JSON value `j`, `.ok none` when `JSON.parse` throws (the
spec's `SchemaViolation`), `.error e` when the remote call fails.  The
source returns the parsed value as-is: `return JSON.parse(response.text)`. -/
def analyzeCode (remote : Except RemoteErr (Option Json)) : Except GwError Json :=
  match remote with
  | .error e => .error (.remoteError e)
  | .ok none => .error .schemaViolation
  | .ok (some j) => .ok j

/-- `generateLesson` (geminiService.ts lines 36-45): returns the raw
response text, no local parsing or validation. -/
def generateLesson (remote : Except RemoteErr String) : Except GwError String :=
  match remote with
  | .error e => .error (.remoteError e)
  | .ok text => .ok text

/-- An inline binary part of a provider response, with the
provider-reported MIME type. -/
structure InlineData where
  data : String
  mimeType : String
deriving DecidableEq, Repr

/-- One part of a provider response candidate's content. -/
structure Part where
  text : Option String := none
  inlineData : Option InlineData := none
deriving DecidableEq, Repr

/-- The scan loop shared by `generateConceptImage` (lines 61-66) and
`editConceptImage` (lines 136-141): return the first part carrying
inline data, rendered as a data URI with the hard-coded
`data:image/png;base64,` prefix, or `none` when no part has inline data. -/
def firstInlineDataUri : List Part → Option String
  | [] => none
  | p :: ps =>
    match p.inlineData with
    | some d => some ("data:image/png;base64," ++ d.data)
    | none => firstInlineDataUri ps

/-- `generateConceptImage` (geminiService.ts lines 47-67).  The
environment parameter is the outcome of the remote call, carrying
`response.candidates[0].content.parts`. -/
def generateConceptImage (remote : Except RemoteErr (List Part)) :
    Except GwError (Option String) :=
  match remote with
  | .error e => .error (.remoteError e)
  | .ok parts => .ok (firstInlineDataUri parts)

/-- The JS `String.prototype.split` builtin restricted to a
single-character separator, over the character list: `"".split(sep)`
is `[""]`, and adjacent separators yield empty fields, as in JS. -/
def jsSplitChars (sep : Char) : List Char → List (List Char)
  | [] => [[]]
  | c :: cs =>
    match jsSplitChars sep cs with
    | [] => if c = sep then [[], []] else [[c]]
    | r :: rs => if c = sep then [] :: r :: rs else (c :: r) :: rs

/-- The JS `String.prototype.split` builtin on a one-character
separator string (the source splits on `','`). -/
def jsSplit (sep : Char) (s : String) : List String :=
  (jsSplitChars sep s.toList).map fun cs => String.mk cs

/-- The JS `String.prototype.trim` builtin: strip leading and trailing
whitespace. -/
def jsTrim (s : String) : String :=
  String.mk
    (((s.toList.dropWhile Char.isWhitespace).reverse.dropWhile Char.isWhitespace).reverse)

/-- An inline-data block of a request; `data` is `Option` because the
source can pass the JS `undefined` value there (see
`editConceptImageRequest`). -/
structure ReqInlineData where
  data : Option String
  mimeType : String
deriving DecidableEq, Repr

/-- One part of a request's `contents.parts`. -/
structure ReqPart where
  text : Option String := none
  inlineData : Option ReqInlineData := none
deriving DecidableEq, Repr

/-- The `contents.parts` array built by `editConceptImage`
(geminiService.ts lines 121-133): an inline-data part holding
`base64Image.split(',')[1]` declared as `image/png`, then a text part
with the edit instruction.  On a comma-less input the JS index `[1]`
is `undefined`, modelled as `none`; the call still proceeds. -/
def editConceptImageRequest (base64Image : String) (prompt : String) : List ReqPart :=
  [ { inlineData := some { data := (jsSplit ',' base64Image).get? 1, mimeType := "image/png" } },
    { text := some prompt } ]

/-- `editConceptImage` (geminiService.ts lines 118-142).  The remote
environment is a function of the submitted request parts, so the
payload actually sent is visible to the outcome. -/
def editConceptImage (base64Image : String) (prompt : String)
    (remote : List ReqPart → Except RemoteErr (List Part)) :
    Except GwError (Option String) :=
  match remote (editConceptImageRequest base64Image prompt) with
  | .error e => .error (.remoteError e)
  | .ok parts => .ok (firstInlineDataUri parts)

/-- `tutorChat.sendMessage` wrapped as in `handleSendMessage`
(App, line 282-283): the reply text is `response.text || 'No response'`,
so a missing (`none`) or empty reply text falls back to the placeholder. -/
def tutorChatSendMessage (message : String)
    (remote : Except RemoteErr (Option String)) : Except GwError String :=
  match remote with
  | .error e => .error (.remoteError e)
  | .ok t =>
    .ok (match t with
         | some txt => if txt.isEmpty then "No response" else txt
         | none => "No response")

/-- `operation.response?.generatedVideos?[0]?.video?` target. -/
structure VideoRef where
  uri : Option String
deriving DecidableEq, Repr

/-- One entry of `generatedVideos`. -/
structure GeneratedVideo where
  video : Option VideoRef
deriving DecidableEq, Repr

/-- The `response` carried by a completed video operation. -/
structure VideoOpResponse where
  generatedVideos : Option (List GeneratedVideo)
deriving DecidableEq, Repr

/-- A long-running video-generation operation handle as polled by the
source: a `done` flag and an optional response. -/
structure VideoOperation where
  done : Bool
  response : Option VideoOpResponse
deriving DecidableEq, Repr

/-- `operation.response?.generatedVideos?[0]?.video?.uri`
(geminiService.ts line 104), with each `?.` step modelled by `bind`. -/
def downloadLinkOf (op : VideoOperation) : Option String :=
  (((op.response.bind fun r => r.generatedVideos).bind fun vs => vs.get? 0).bind
    fun gv => gv.video).bind fun v => v.uri

/-- The `while (!operation.done)` poll loop (geminiService.ts lines
99-102).  Each iteration waits one fixed 5000 ms delay and queries the
operation status; the environment supplies the successive statuses as a
list.  Returns the completed operation together with the number of poll
delays that elapsed, or `none` when the supplied statuses run out
before the operation reports `done` (the source loop would keep
polling). -/
def pollUntilDone (op : VideoOperation) (polls : List VideoOperation) :
    Option (VideoOperation × Nat) :=
  if op.done then some (op, 0)
  else
    match polls with
    | [] => none
    | next :: rest => (pollUntilDone next rest).map fun r => (r.1, r.2 + 1)

/-- Observable trace of one `generateConceptVideo` run: the returned
value, how many poll delays elapsed, and the URL handed to `fetch`
(`none` when no follow-up fetch was made). -/
structure VideoTrace where
  result : Except GwError (Option String)
  pollDelays : Nat
  fetchUrl : Option String
deriving Repr

/-- `generateConceptVideo` (geminiService.ts lines 88-116).
Environment: the outcome of the initial `generateVideos` call, the
successive poll statuses, and the outcome of `fetch`+`blob`+
`URL.createObjectURL` as a function of the fetched URL.  The source
checks `if (!downloadLink) return null`, so a missing uri — or the JS
falsy empty string — yields `null` with no fetch.  Returns `none` when
the poll-status environment is exhausted before completion. -/
def generateConceptVideo (remote : Except RemoteErr VideoOperation)
    (polls : List VideoOperation)
    (fetched : String → Except RemoteErr String) : Option VideoTrace :=
  match remote with
  | .error e => some ⟨.error (.remoteError e), 0, none⟩
  | .ok op =>
    match pollUntilDone op polls with
    | none => none
    | some (final, n) =>
      match downloadLinkOf final with
      | none => some ⟨.ok none, n, none⟩
      | some url =>
        if url.isEmpty then some ⟨.ok none, n, none⟩
        else
          match fetched url with
          | .error e => some ⟨.error (.remoteError e), n, some url⟩
          | .ok objectUrl => some ⟨.ok (some objectUrl), n, some url⟩

/-- The four navigable views of the App component. -/
inductive View where
  | lessons
  | playground
  | chat
  | voice
deriving DecidableEq, Repr

/-- Role of a chat transcript turn. -/
inductive ChatRole where
  | user
  | model
deriving DecidableEq, Repr

/-- One turn of the chat transcript. -/
structure ChatMsg where
  role : ChatRole
  text : String
deriving DecidableEq, Repr

/-- The App component's `useState` fields.  There is no error-message
field: a failed flow leaves no visible trace beyond its state resets. -/
structure AppState where
  currentView : View
  isSidebarOpen : Bool
  currentLesson : Option String
  isLoading : Bool
  code : String
  analysis : Option Json
  chatMessages : List ChatMsg
  chatInput : String
  lessonTopic : String
  conceptImage : Option String
  conceptVideo : Option String
  isTranscribing : Bool

/-- State after the synchronous prefix of `handleGenerateLesson`
(App lines 234-236): busy set and both media slots cleared before the
remote call is issued. -/
def handleGenerateLessonStart (s : AppState) : AppState :=
  { s with isLoading := true, conceptImage := none, conceptVideo := none }

/-- `handleGenerateLesson` (App lines 233-246): clear media, set busy,
call `generateLesson`; on success store the lesson text and the topic;
on failure log only; clear busy in `finally`. -/
def handleGenerateLesson (topic : String) (remote : Except RemoteErr String)
    (s : AppState) : AppState :=
  let s1 := handleGenerateLessonStart s
  match generateLesson remote with
  | .ok lesson => { s1 with currentLesson := some lesson, lessonTopic := topic, isLoading := false }
  | .error _ => { s1 with isLoading := false }

/-- State after `setIsLoading(true)` in `handleAnalyzeCode` (App line 249). -/
def handleAnalyzeCodeStart (s : AppState) : AppState :=
  { s with isLoading := true }

/-- `handleAnalyzeCode` (App lines 248-258): set busy, call
`analyzeCode` on the current editor buffer, store the structured result
on success, log on failure, clear busy in `finally`. -/
def handleAnalyzeCode (remote : Except RemoteErr (Option Json)) (s : AppState) : AppState :=
  let s1 := handleAnalyzeCodeStart s
  match analyzeCode remote with
  | .ok result => { s1 with analysis := some result, isLoading := false }
  | .error _ => { s1 with isLoading := false }

/-- State after `setIsLoading(true)` in `handleGenerateIllustration` (App line 210). -/
def handleGenerateIllustrationStart (s : AppState) : AppState :=
  { s with isLoading := true }

/-- `handleGenerateIllustration` (App lines 209-219): set busy, call
`generateConceptImage` with the current topic, store the (possibly
absent) image, clear busy in `finally`. -/
def handleGenerateIllustration (remote : Except RemoteErr (List Part))
    (s : AppState) : AppState :=
  let s1 := handleGenerateIllustrationStart s
  match generateConceptImage remote with
  | .ok img => { s1 with conceptImage := img, isLoading := false }
  | .error _ => { s1 with isLoading := false }

/-- State after `setIsLoading(true)` in `handleGenerateVideo` (App line 222). -/
def handleGenerateVideoStart (s : AppState) : AppState :=
  { s with isLoading := true }

/-- `handleGenerateVideo` (App lines 221-231): set busy, run the video
gateway operation, store the (possibly absent) handle, clear busy in
`finally`. `none` when the poll-status environment is exhausted. -/
def handleGenerateVideo (remote : Except RemoteErr VideoOperation)
    (polls : List VideoOperation) (fetched : String → Except RemoteErr String)
    (s : AppState) : Option AppState :=
  let s1 := handleGenerateVideoStart s
  (generateConceptVideo remote polls fetched).map fun tr =>
    match tr.result with
    | .ok videoUrl => { s1 with conceptVideo := videoUrl, isLoading := false }
    | .error _ => { s1 with isLoading := false }

/-- State after `setIsLoading(true)` in `handleEditIllustration`
(App line 198), reached only when the guard passed. -/
def handleEditIllustrationStart (s : AppState) : AppState :=
  { s with isLoading := true }

/-- `handleEditIllustration` (App lines 196-207): no-op when no
illustration exists; otherwise set busy, call `editConceptImage` with
the stored image, replace the stored image with the result on success,
log on failure, clear busy in `finally`. -/
def handleEditIllustration (prompt : String)
    (remote : List ReqPart → Except RemoteErr (List Part)) (s : AppState) : AppState :=
  match s.conceptImage with
  | none => s
  | some img =>
    let s1 := handleEditIllustrationStart s
    match editConceptImage img prompt remote with
    | .ok edited => { s1 with conceptImage := edited, isLoading := false }
    | .error _ => { s1 with isLoading := false }

/-- State after the synchronous prefix of `handleSendMessage` (App
lines 277-280), reached only when the guard passed: the user turn is
appended optimistically, the input field cleared and busy set before
the remote call is issued. -/
def handleSendMessageStart (s : AppState) : AppState :=
  { s with chatMessages := s.chatMessages ++ [⟨.user, s.chatInput⟩],
           chatInput := "", isLoading := true }

/-- `handleSendMessage` (App lines 275-289).  Guard: no-op when the
input trims to empty.  Otherwise append the user turn, clear the input,
set busy, send; on success append the model turn, on failure log only;
clear busy in `finally`.  The second component records whether the
remote call was issued. -/
def handleSendMessage (remote : Except RemoteErr (Option String))
    (s : AppState) : AppState × Bool :=
  if jsTrim s.chatInput = "" then (s, false)
  else
    let s1 := handleSendMessageStart s
    match tutorChatSendMessage s.chatInput remote with
    | .ok text =>
      ({ s1 with chatMessages := s1.chatMessages ++ [⟨.model, text⟩], isLoading := false }, true)
    | .error _ => ({ s1 with isLoading := false }, true)

/-- A concrete App state with a stored lesson, image, video, transcript
and a non-empty chat input, used to instantiate the theorems below. -/
def sampleState : AppState :=
  { currentView := .lessons
    isSidebarOpen := true
    currentLesson := some "old lesson"
    isLoading := false
    code := "x = 1"
    analysis := none
    chatMessages := [⟨.user, "hi"⟩, ⟨.model, "hello"⟩]
    chatInput := "question"
    lessonTopic := "Variables"
    conceptImage := some "data:image/png;base64,AAA"
    conceptVideo := some "blob:old-video"
    isTranscribing := false }

/-- `sampleState` with a comma-less (malformed) stored image. -/
def malformedImageState : AppState :=
  { sampleState with conceptImage := some "notadatauri" }

/-- `sampleState` with a whitespace-only chat input. -/
def whitespaceInputState : AppState :=
  { sampleState with chatInput := "   " }

/-- A video operation still in progress. -/
def pendingVideoOp : VideoOperation := ⟨false, none⟩

/-- A completed video operation carrying a resolvable download uri. -/
def doneVideoOp : VideoOperation :=
  ⟨true, some ⟨some [⟨some ⟨some "https://video.example/v1"⟩⟩]⟩⟩

/-- A completed video operation carrying no download uri. -/
def doneVideoOpNoLink : VideoOperation := ⟨true, none⟩

/-- A fetch environment returning a fixed object URL. -/
def videoFetchEnv : String → Except RemoteErr String :=
  fun _ => .ok "blob:video-handle"

/-- The state produced by a successful video flow on `sampleState`. -/
def videoResultState : AppState :=
  { handleGenerateVideoStart sampleState with
      conceptVideo := some "blob:video-handle", isLoading := false }

/-- A response part carrying inline data that the provider labels as
JPEG, to show the returned data URI is still labelled `image/png`. -/
def jpegPart : Part :=
  { inlineData := some { data := "QUJD", mimeType := "image/jpeg" } }

theorem firstInlineDataUri_of_no_inline (parts : List Part)
    (h : ∀ p ∈ parts, p.inlineData = none) : firstInlineDataUri parts = none := by
  induction parts with
  | nil => rfl
  | cons p ps ih =>
    have hp := h p (by simp)
    rw [firstInlineDataUri, hp]
    exact ih fun q hq => h q (by simp [hq])

theorem firstInlineDataUri_first_match (pre post : List Part) (p0 : Part)
    (d : InlineData) (hpre : ∀ q ∈ pre, q.inlineData = none)
    (hp0 : p0.inlineData = some d) :
    firstInlineDataUri (pre ++ p0 :: post)
      = some ("data:image/png;base64," ++ d.data) := by
  induction pre with
  | nil => rw [List.nil_append, firstInlineDataUri, hp0]
  | cons q qs ih =>
    have hq := hpre q (by simp)
    rw [List.cons_append, firstInlineDataUri, hq]
    exact ih fun r hr => hpre r (by simp [hr])

/-- C1: the claim says a remote response whose text parses as JSON but
lacks one of the four required fields fails with `SchemaViolation` and
never yields a partially-populated record.  The source instead returns
`JSON.parse(response.text)` with no local field check: on the JSON
object carrying only `explanation`, `analyzeCode` succeeds with that
partially-populated value and raises nothing. -/
theorem analyzeCode_missing_field_passthrough :
    (Json.obj [("explanation", Json.str "ok")]).hasField "explanation" = true ∧
    (Json.obj [("explanation", Json.str "ok")]).hasField "bugs" = false ∧
    "bugs" ∈ analyzeCodeRequiredFields ∧
    analyzeCode (.ok (some (Json.obj [("explanation", Json.str "ok")])))
      = .ok (Json.obj [("explanation", Json.str "ok")]) := by
  refine ⟨by decide, by decide, by decide, rfl⟩

/-- C2: the claim says a non-data-URI input makes `editConceptImage`
fail with `MalformedInput` and leaves the stored illustration
unchanged.  The source never raises `MalformedInput`: on a comma-less
input, `base64Image.split(',')[1]` is the JS `undefined`, the request
is still submitted with that absent payload declared `image/png`, and
in the edit flow the stored illustration is replaced by the remote
outcome (here: dropped), not kept. -/
theorem editConceptImage_malformed_passthrough :
    (jsSplit ',' "notadatauri").get? 1 = none ∧
    editConceptImageRequest "notadatauri" "Add a retro filter"
      = [{ inlineData := some { data := none, mimeType := "image/png" } },
         { text := some "Add a retro filter" }] ∧
    editConceptImage "notadatauri" "Add a retro filter" (fun _ => .ok [])
      = .ok none ∧
    malformedImageState.conceptImage = some "notadatauri" ∧
    (handleEditIllustration "Add a retro filter" (fun _ => .ok [])
        malformedImageState).conceptImage = none := by
  refine ⟨by decide, by decide, rfl, rfl, rfl⟩

/-- C3: every lesson-generation request clears any previously stored
illustration and video — already at the pre-call point, and in the
final state whether the remote call succeeds or fails. -/
theorem handleGenerateLesson_clears_media (topic : String)
    (remote : Except RemoteErr String) (s : AppState) :
    (handleGenerateLessonStart s).conceptImage = none ∧
    (handleGenerateLessonStart s).conceptVideo = none ∧
    (handleGenerateLesson topic remote s).conceptImage = none ∧
    (handleGenerateLesson topic remote s).conceptVideo = none := by
  cases remote <;>
    simp [handleGenerateLesson, handleGenerateLessonStart, generateLesson]

/-- C4: if the lesson call fails, the stored lesson text and the active
topic are unchanged and the busy flag is still cleared; on success the
stored lesson equals the returned text and the topic becomes the
requested topic. -/
theorem handleGenerateLesson_outcomes (topic : String)
    (remote : Except RemoteErr String) (s : AppState) :
    (∀ e, remote = .error e →
       (handleGenerateLesson topic remote s).currentLesson = s.currentLesson ∧
       (handleGenerateLesson topic remote s).lessonTopic = s.lessonTopic ∧
       (handleGenerateLesson topic remote s).isLoading = false) ∧
    (∀ txt, remote = .ok txt →
       (handleGenerateLesson topic remote s).currentLesson = some txt ∧
       (handleGenerateLesson topic remote s).lessonTopic = topic ∧
       (handleGenerateLesson topic remote s).isLoading = false) := by
  constructor
  · rintro e rfl
    simp [handleGenerateLesson, handleGenerateLessonStart, generateLesson]
  · rintro txt rfl
    simp [handleGenerateLesson, handleGenerateLessonStart, generateLesson]

/-- Closed instance of `handleGenerateLesson_outcomes` at topic
"Loops", one failing and one succeeding remote outcome. -/
theorem handleGenerateLesson_outcomes_witness :
    (handleGenerateLesson "Loops" (.error .network) sampleState).currentLesson
        = sampleState.currentLesson ∧
    (handleGenerateLesson "Loops" (.error .network) sampleState).lessonTopic
        = sampleState.lessonTopic ∧
    (handleGenerateLesson "Loops" (.error .network) sampleState).isLoading = false ∧
    (handleGenerateLesson "Loops" (.ok "lesson text") sampleState).currentLesson
        = some "lesson text" ∧
    (handleGenerateLesson "Loops" (.ok "lesson text") sampleState).lessonTopic
        = "Loops" := by
  obtain ⟨hf, -⟩ := handleGenerateLesson_outcomes "Loops" (.error .network) sampleState
  obtain ⟨-, hs⟩ := handleGenerateLesson_outcomes "Loops" (.ok "lesson text") sampleState
  obtain ⟨h1, h2, h3⟩ := hf .network rfl
  obtain ⟨h4, h5, -⟩ := hs "lesson text" rfl
  exact ⟨h1, h2, h3, h4, h5⟩

/-- C5: a chat send that fails after the remote call is issued leaves
the optimistically appended user turn in the transcript appends no
model turn, and the remote call was indeed issued. -/
theorem handleSendMessage_failure_keeps_user_turn
    (remote : Except RemoteErr (Option String)) (s : AppState) (e : RemoteErr)
    (hin : ¬ jsTrim s.chatInput = "") (hrem : remote = .error e) :
    (handleSendMessage remote s).1.chatMessages
      = s.chatMessages ++ [⟨.user, s.chatInput⟩] ∧
    (handleSendMessage remote s).2 = true := by
  subst hrem
  simp [handleSendMessage, handleSendMessageStart, tutorChatSendMessage, hin]

/-- Closed instance of `handleSendMessage_failure_keeps_user_turn` on
`sampleState` (input "question") and a network failure. -/
theorem handleSendMessage_failure_keeps_user_turn_witness :
    (handleSendMessage (.error .network) sampleState).1.chatMessages
      = sampleState.chatMessages ++ [⟨.user, sampleState.chatInput⟩] ∧
    (handleSendMessage (.error .network) sampleState).2 = true :=
  handleSendMessage_failure_keeps_user_turn (.error .network) sampleState .network
    (by decide) rfl

/-- C6: a chat send whose input trims to empty is a no-op — the state
is returned unchanged and no remote call is made. -/
theorem handleSendMessage_whitespace_noop
    (remote : Except RemoteErr (Option String)) (s : AppState)
    (h : jsTrim s.chatInput = "") :
    handleSendMessage remote s = (s, false) := by
  simp [handleSendMessage, h]

/-- Closed instance of `handleSendMessage_whitespace_noop` on a state
whose chat input is three spaces. -/
theorem handleSendMessage_whitespace_noop_witness :
    handleSendMessage (.ok (some "reply")) whitespaceInputState
      = (whitespaceInputState, false) :=
  handleSendMessage_whitespace_noop (.ok (some "reply")) whitespaceInputState
    (by decide)

/-- C7: when the video operation reports done=false twice and then
done=true with a resolvable download uri, exactly two poll delays
elapse before the follow-up fetch; and whenever the completed
operation carries no download uri the result is absent and no fetch
occurs. -/
theorem generateConceptVideo_polls_and_fetch :
    generateConceptVideo (.ok pendingVideoOp) [pendingVideoOp, doneVideoOp]
        videoFetchEnv
      = some ⟨.ok (some "blob:video-handle"), 2, some "https://video.example/v1"⟩ ∧
    ∀ (op final : VideoOperation) (polls : List VideoOperation)
      (fetched : String → Except RemoteErr String) (n : Nat),
      pollUntilDone op polls = some (final, n) →
      downloadLinkOf final = none →
      generateConceptVideo (.ok op) polls fetched = some ⟨.ok none, n, none⟩ := by
  constructor
  · rfl
  · intro op final polls fetched n hpoll hlink
    simp [generateConceptVideo, hpoll, hlink]

/-- Closed instance of the no-download-reference half of
`generateConceptVideo_polls_and_fetch`: one pending poll, then a
completed operation with no uri — absent result, no fetch, one delay. -/
theorem generateConceptVideo_polls_and_fetch_witness :
    generateConceptVideo (.ok pendingVideoOp) [doneVideoOpNoLink] videoFetchEnv
      = some ⟨.ok none, 1, none⟩ :=
  generateConceptVideo_polls_and_fetch.2 pendingVideoOp doneVideoOpNoLink
    [doneVideoOpNoLink] videoFetchEnv 1 rfl rfl

/-- C8: in every orchestrator flow that performs a remote call (lesson,
illustration, illustration edit, video, analysis, chat send) the busy
flag is true at the pre-call point and false on completion whether the
call succeeds or fails; and the final state on failure does not depend
on which error occurred — the App state has no error field, so no
failure surfaces as a visible message. -/
theorem busy_flag_discipline :
    (∀ (topic : String) (remote : Except RemoteErr String) (s : AppState),
       (handleGenerateLessonStart s).isLoading = true ∧
       (handleGenerateLesson topic remote s).isLoading = false ∧
       ∀ e e', handleGenerateLesson topic (.error e) s
                 = handleGenerateLesson topic (.error e') s) ∧
    (∀ (remote : Except RemoteErr (List Part)) (s : AppState),
       (handleGenerateIllustrationStart s).isLoading = true ∧
       (handleGenerateIllustration remote s).isLoading = false ∧
       ∀ e e', handleGenerateIllustration (.error e) s
                 = handleGenerateIllustration (.error e') s) ∧
    (∀ (remote : Except RemoteErr VideoOperation) (polls : List VideoOperation)
       (fetched : String → Except RemoteErr String) (s : AppState),
       (handleGenerateVideoStart s).isLoading = true ∧
       (∀ s', handleGenerateVideo remote polls fetched s = some s' →
          s'.isLoading = false) ∧
       ∀ e e', handleGenerateVideo (.error e) polls fetched s
                 = handleGenerateVideo (.error e') polls fetched s) ∧
    (∀ (prompt : String) (remote : List ReqPart → Except RemoteErr (List Part))
       (s : AppState) (img : String), s.conceptImage = some img →
       (handleEditIllustrationStart s).isLoading = true ∧
       (handleEditIllustration prompt remote s).isLoading = false ∧
       ∀ e e', handleEditIllustration prompt (fun _ => .error e) s
                 = handleEditIllustration prompt (fun _ => .error e') s) ∧
    (∀ (remote : Except RemoteErr (Option Json)) (s : AppState),
       (handleAnalyzeCodeStart s).isLoading = true ∧
       (handleAnalyzeCode remote s).isLoading = false ∧
       ∀ e e', handleAnalyzeCode (.error e) s = handleAnalyzeCode (.error e') s) ∧
    (∀ (remote : Except RemoteErr (Option String)) (s : AppState),
       ¬ jsTrim s.chatInput = "" →
       ((handleSendMessage remote s).1.isLoading = false ∧
        ∀ e e', handleSendMessage (.error e) s = handleSendMessage (.error e') s)) := by
  refine ⟨?_, ?_, ?_, ?_, ?_, ?_⟩
  · intro topic remote s
    refine ⟨rfl, ?_, fun e e' => rfl⟩
    cases remote <;>
      simp [handleGenerateLesson, handleGenerateLessonStart, generateLesson]
  · intro remote s
    refine ⟨rfl, ?_, fun e e' => rfl⟩
    cases remote <;>
      simp [handleGenerateIllustration, handleGenerateIllustrationStart,
            generateConceptImage]
  · intro remote polls fetched s
    refine ⟨rfl, ?_, fun e e' => rfl⟩
    intro s' hs'
    cases remote with
    | error e =>
      simp [handleGenerateVideo, handleGenerateVideoStart,
            generateConceptVideo] at hs'
      simp [← hs']
    | ok op =>
      rw [handleGenerateVideo] at hs'
      rcases hop : generateConceptVideo (.ok op) polls fetched with - | tr <;>
        rw [hop] at hs' <;> simp at hs'
      rcases htr : tr.result with e | v <;> rw [htr] at hs' <;>
        simp at hs' <;> rw [← hs']
  · intro prompt remote s img himg
    refine ⟨rfl, ?_, fun e e' => rfl⟩
    rw [handleEditIllustration, himg]
    cases hrem : editConceptImage img prompt remote <;> simp [hrem]
  · intro remote s
    refine ⟨rfl, ?_, fun e e' => rfl⟩
    rcases remote with e | j
    · simp [handleAnalyzeCode, handleAnalyzeCodeStart, analyzeCode]
    · rcases j with - | j <;>
        simp [handleAnalyzeCode, handleAnalyzeCodeStart, analyzeCode]
  · intro remote s hin
    refine ⟨?_, fun e e' => rfl⟩
    rw [handleSendMessage]
    rcases remote with e | t
    · simp [hin, tutorChatSendMessage]
    · simp [hin, tutorChatSendMessage]

/-- Closed instances of every part of `busy_flag_discipline`, on
`sampleState`, discharging the edit-flow and chat-flow guards and the
video completion hypothesis at concrete environments. -/
theorem busy_flag_discipline_witness :
    (handleGenerateLessonStart sampleState).isLoading = true ∧
    (handleGenerateLesson "Loops" (.error .network) sampleState).isLoading = false ∧
    handleGenerateLesson "Loops" (.error .network) sampleState
      = handleGenerateLesson "Loops" (.error .quota) sampleState ∧
    (handleGenerateIllustration (.error .auth) sampleState).isLoading = false ∧
    handleGenerateVideo (.ok doneVideoOp) [] videoFetchEnv sampleState
      = some videoResultState ∧
    videoResultState.isLoading = false ∧
    (handleEditIllustration "Add a retro filter" (fun _ => .error .network)
        sampleState).isLoading = false ∧
    handleEditIllustration "Add a retro filter" (fun _ => .error .network) sampleState
      = handleEditIllustration "Add a retro filter" (fun _ => .error .service) sampleState ∧
    (handleAnalyzeCode (.error .network) sampleState).isLoading = false ∧
    (handleSendMessage (.error .network) sampleState).1.isLoading = false ∧
    handleSendMessage (.error .network) sampleState
      = handleSendMessage (.error .quota) sampleState := by
  obtain ⟨hl, hi, hv, he, ha, hc⟩ := busy_flag_discipline
  have hvdone : handleGenerateVideo (.ok doneVideoOp) [] videoFetchEnv sampleState
      = some videoResultState := rfl
  have hedit := he "Add a retro filter" (fun _ => .error .network) sampleState
    "data:image/png;base64,AAA" rfl
  have hchat := hc (.error .network) sampleState (by decide)
  exact ⟨(hl "Loops" (.error .network) sampleState).1,
         (hl "Loops" (.error .network) sampleState).2.1,
         (hl "Loops" (.error .network) sampleState).2.2 .network .quota,
         (hi (.error .auth) sampleState).2.1,
         hvdone,
         (hv (.ok doneVideoOp) [] videoFetchEnv sampleState).2.1
           videoResultState hvdone,
         hedit.2.1,
         hedit.2.2 .network .service,
         (ha (.error .network) sampleState).2.1,
         hchat.1,
         hchat.2 .network .quota⟩

/-- C9: when an illustration exists and the edit call succeeds but the
remote response contains no inline image part, the stored illustration
is replaced by absent — the previous image is lost rather than kept. -/
theorem handleEditIllustration_drops_image (prompt : String)
    (remote : List ReqPart → Except RemoteErr (List Part)) (s : AppState)
    (img : String) (parts : List Part)
    (himg : s.conceptImage = some img)
    (hremote : remote (editConceptImageRequest img prompt) = .ok parts)
    (hnone : ∀ p ∈ parts, p.inlineData = none) :
    (handleEditIllustration prompt remote s).conceptImage = none := by
  have hfirst := firstInlineDataUri_of_no_inline parts hnone
  simp [handleEditIllustration, himg, editConceptImage, hremote, hfirst]

/-- Closed instance of `handleEditIllustration_drops_image`: the remote
edit succeeds with a text-only response and `sampleState`'s stored
image is dropped. -/
theorem handleEditIllustration_drops_image_witness :
    (handleEditIllustration "Add a retro filter"
        (fun _ => .ok [{ text := some "done" }]) sampleState).conceptImage = none :=
  handleEditIllustration_drops_image "Add a retro filter"
    (fun _ => .ok [{ text := some "done" }]) sampleState
    "data:image/png;base64,AAA" [{ text := some "done" }] rfl rfl (by decide)

/-- C10: both image operations label the returned data URI `image/png`
regardless of the MIME type the provider reports on the inline data,
and the edit operation submits the decoded input payload declared as
`image/png`. -/
theorem image_ops_always_png (pre post : List Part) (p0 : Part) (d : InlineData)
    (img prompt : String) (remote : List ReqPart → Except RemoteErr (List Part))
    (hpre : ∀ q ∈ pre, q.inlineData = none)
    (hp0 : p0.inlineData = some d)
    (hremote : remote (editConceptImageRequest img prompt) = .ok (pre ++ p0 :: post)) :
    generateConceptImage (.ok (pre ++ p0 :: post))
      = .ok (some ("data:image/png;base64," ++ d.data)) ∧
    editConceptImage img prompt remote
      = .ok (some ("data:image/png;base64," ++ d.data)) ∧
    ∀ rp ∈ editConceptImageRequest img prompt, ∀ rd, rp.inlineData = some rd →
      rd.mimeType = "image/png" ∧ rd.data = (jsSplit ',' img).get? 1 := by
  have hfirst := firstInlineDataUri_first_match pre post p0 d hpre hp0
  refine ⟨?_, ?_, ?_⟩
  · simp [generateConceptImage, hfirst]
  · simp [editConceptImage, hremote, hfirst]
  · intro rp hrp rd hrd
    simp [editConceptImageRequest] at hrp
    rcases hrp with rfl | rfl
    · obtain rfl := Option.some.inj hrd
      exact ⟨rfl, by simp [List.get?_eq_getElem?]⟩
    · exact Option.noConfusion hrd

/-- Closed instance of `image_ops_always_png`: the provider labels the
inline data `image/jpeg`, yet both operations return a
`data:image/png;base64,` URI, and the submitted edit payload is the
post-comma slice declared `image/png`. -/
theorem image_ops_always_png_witness :
    generateConceptImage (.ok [jpegPart])
      = .ok (some ("data:image/png;base64," ++ "QUJD")) ∧
    editConceptImage "data:image/png;base64,OLD" "Add a retro filter"
        (fun _ => .ok [jpegPart])
      = .ok (some ("data:image/png;base64," ++ "QUJD")) ∧
    (jsSplit ',' "data:image/png;base64,OLD").get? 1 = some "OLD" := by
  obtain ⟨h1, h2, -⟩ := image_ops_always_png [] [] jpegPart
    { data := "QUJD", mimeType := "image/jpeg" }
    "data:image/png;base64,OLD" "Add a retro filter" (fun _ => .ok [jpegPart])
    (by simp) rfl rfl
  exact ⟨h1, h2, by decide⟩

end PyCoach
